import Mathlib

/-!
Verification of `monitor.py` (beerhunters/monitor_for_crypto).

Shallow embedding: Python floats are modelled as rationals (`ℚ`), Python
exceptions as an explicit `Except` result, and console output as a list of
abstract output lines.  The embedding follows the source file function by
function:

* `Update`            — the `Update` namedtuple (line 7);
* `compare_prices`    — `Monitoring.compare_prices` (lines 52-59);
* `window_decide`     — the window bookkeeping inside `Monitoring.monitor`
                        (lines 30-33): `self.initial = self.initial or update`
                        followed by the elapsed-window test and reference reset;
* `monitor_step`      — one iteration of the `for update in self.get_prices()`
                        body (lines 29-35, the 0.5s sleep carries no state);
* `monitor_fold`      — the loop run over a finite list of samples;
* `monitor_run`       — the loop run over a finite list of sampler events,
                        including the `except KeyboardInterrupt` handler
                        (lines 28-37) and the fatal `RuntimeError` path;
* `sessionGet`        — the urllib3 `Retry` transport configured by
                        `create_retry_session` (lines 68-78): `total=retries`
                        RETRIES after the initial request, retrying on
                        connection errors and on statuses in
                        `status_forcelist`, raising `MaxRetryError`
                        (a `RequestException`) on exhaustion;
* `get_prices_once`   — one iteration of the `Monitoring.get_prices`
                        generator (lines 39-50): `session.get(...).json()`,
                        field lookup (`KeyError` when missing), `float(...)`
                        (`ValueError` on a non-decimal string), and the
                        `except requests.exceptions.RequestException` clause
                        that re-raises as `RuntimeError`.  A malformed JSON
                        body raises `requests.exceptions.JSONDecodeError`,
                        which is a `RequestException` subclass (requests ≥
                        2.27), hence is caught and re-raised as
                        `RuntimeError`.
-/

/-- Python exception classes that can escape the modelled code. -/
inductive PyExc where
  | runtimeError
  | keyError
  | valueError
  | zeroDivisionError
deriving DecidableEq, Repr

/-- The `Update` namedtuple of monitor.py line 7; `ts` is the monotonic
capture time. -/
structure Update where
  price : ℚ
  price_change : ℚ
  price_change_percent : ℚ
  ts : ℚ
deriving DecidableEq, Repr

/-- One abstract console line.  `alertMsg` is the directional message printed
by `compare_prices` (line 56-58); `currentPrice` is the
`Current price: {p:.2f}` line (lines 59 and 62); the remaining constructors
are the other lines of `display_update` (lines 63-65). -/
inductive OutputLine where
  | alertMsg (direction : String) (absPercent : ℚ)
  | currentPrice (price : ℚ)
  | changePercent (p : ℚ)
  | priceChangeLine (p : ℚ)
  | separator
deriving DecidableEq, Repr

/-- The alert verdict of one `compare_prices` call: `Triggered` exactly when
the `abs(percentage_change) > self.percent_threshold` branch (line 54) is
taken. -/
inductive AlertVerdict where
  | Silent
  | Triggered (direction : String) (absPercent : ℚ)
deriving DecidableEq, Repr

/-- `Monitoring.compare_prices` (lines 52-59).  Python `/` raises
`ZeroDivisionError` when the denominator `initial.price` is zero; otherwise
the percentage change is computed, the alert line is printed when its
absolute value strictly exceeds the threshold, and the current-price line is
printed unconditionally. -/
def compare_prices (percent_threshold : ℚ) (initial current : Update) :
    Except PyExc (AlertVerdict × List OutputLine) :=
  if initial.price = 0 then
    .error .zeroDivisionError
  else
    let percentage_change := 100 * (current.price - initial.price) / initial.price
    if |percentage_change| > percent_threshold then
      let direction := if percentage_change > 0 then "increased" else "decreased"
      .ok (.Triggered direction |percentage_change|,
        [.alertMsg direction |percentage_change|, .currentPrice current.price])
    else
      .ok (.Silent, [.currentPrice current.price])

/-- The lines printed by `Monitoring.display_update` (lines 61-65). -/
def display_update (u : Update) : List OutputLine :=
  [.currentPrice u.price, .changePercent u.price_change_percent,
   .priceChangeLine u.price_change, .separator]

/-- The verdict of an `evaluate` call, `none` when an exception escaped. -/
def verdictOf (r : Except PyExc (AlertVerdict × List OutputLine)) :
    Option AlertVerdict :=
  match r with
  | .ok (v, _) => some v
  | .error _ => none

/-- The spec's `evaluate(reference, current) -> AlertVerdict`: the verdict
component of `compare_prices`. -/
def evaluate (percent_threshold : ℚ) (initial current : Update) :
    Option AlertVerdict :=
  verdictOf (compare_prices percent_threshold initial current)

/-- Whether a verdict is `Triggered`. -/
def AlertVerdict.isTriggered : AlertVerdict → Bool
  | .Silent => false
  | .Triggered _ _ => true

/-- The spec's `WindowDecision`: `Elapsed(reference, current)` when a window
closed and `compare_prices` is called. -/
inductive WindowDecision where
  | Continue
  | Elapsed (reference current : Update)
deriving DecidableEq, Repr

/-- Lines 30-33 of `Monitoring.monitor`, as a pure decision.
`self.initial = self.initial or update` (an `Update` namedtuple of four
fields is always truthy, so this only replaces `None`), then
`if update.ts - self.initial.ts >= self.time_interval`, and on that branch
`self.initial = update` after the comparison.  Returns the decision together
with the reference held in `self.initial` at the end of the iteration. -/
def window_decide (time_interval : ℚ) (initial : Option Update) (update : Update) :
    WindowDecision × Update :=
  let ref := initial.getD update
  if update.ts - ref.ts ≥ time_interval then
    (.Elapsed ref update, update)
  else
    (.Continue, ref)

/-- One iteration of the `monitor` loop body (lines 29-35): window decision,
the `compare_prices` call when the window elapsed (whose exception, if any,
propagates), then `display_update`. -/
def monitor_step (percent_threshold time_interval : ℚ)
    (initial : Option Update) (update : Update) :
    Except PyExc (Option Update × List OutputLine) :=
  match window_decide time_interval initial update with
  | (.Elapsed ref cur, newRef) =>
    match compare_prices percent_threshold ref cur with
    | .error e => .error e
    | .ok (_, lines) => .ok (some newRef, lines ++ display_update update)
  | (.Continue, ref) => .ok (some ref, display_update update)

/-- Concrete sample used by witnesses (spec scenario: reference 2000.00). -/
def sampleA : Update := ⟨2000, 0, 0, 0⟩

/-- Concrete sample used by witnesses (spec scenario: current 2021.00). -/
def sampleB : Update := ⟨2021, 0, 0, 6⟩

example :
    compare_prices 1 sampleA sampleB =
      .ok (.Triggered "increased" (21/20),
        [.alertMsg "increased" (21/20), .currentPrice 2021]) := by
  norm_num [compare_prices, sampleA, sampleB, abs]

example :
    evaluate 1 sampleA ⟨2015, 0, 0, 6⟩ = some .Silent := by
  norm_num [evaluate, compare_prices, verdictOf, sampleA, abs]

/-- C1: with `A.price > 0`, the verdict is `Triggered` iff
`abs(100*(B.price - A.price)/A.price)` strictly exceeds the threshold, and
when the absolute percentage change equals the threshold exactly the verdict
is `Silent`. -/
theorem c1_threshold_strict (th : ℚ) (A B : Update) (hA : 0 < A.price) :
    ((∃ d p, evaluate th A B = some (.Triggered d p)) ↔
      |100 * (B.price - A.price) / A.price| > th) ∧
    (|100 * (B.price - A.price) / A.price| = th →
      evaluate th A B = some .Silent) := by
  have hne : A.price ≠ 0 := ne_of_gt hA
  unfold evaluate verdictOf compare_prices
  simp only [if_neg hne]
  refine ⟨⟨?_, ?_⟩, ?_⟩
  · rintro ⟨d, p, h⟩
    by_contra hc
    rw [if_neg hc] at h
    simp at h
  · intro h
    rw [if_pos h]
    exact ⟨_, _, rfl⟩
  · intro h
    rw [if_neg (by rw [h]; exact lt_irrefl th)]

/-- C1 witness: threshold 1, reference price 2000, current price 2021. -/
theorem c1_threshold_strict_witness :
    ((∃ d p, evaluate 1 sampleA sampleB = some (.Triggered d p)) ↔
      |100 * (sampleB.price - sampleA.price) / sampleA.price| > 1) ∧
    (|100 * (sampleB.price - sampleA.price) / sampleA.price| = 1 →
      evaluate 1 sampleA sampleB = some .Silent) :=
  c1_threshold_strict 1 sampleA sampleB (by norm_num [sampleA])

/-- C4: with `A.price > 0` and a `Triggered` verdict, for a nonzero price
difference the direction is "increased" exactly when `B.price > A.price` and
"decreased" exactly when `B.price < A.price`; moreover under a non-negative
threshold a `Triggered` verdict forces a nonzero difference. -/
theorem c4_direction (th : ℚ) (A B : Update) (d : String) (p : ℚ)
    (hA : 0 < A.price)
    (hT : evaluate th A B = some (.Triggered d p)) :
    (B.price ≠ A.price →
      ((d = "increased" ↔ A.price < B.price) ∧
       (d = "decreased" ↔ B.price < A.price))) ∧
    (0 ≤ th → B.price ≠ A.price) := by
  have hne : A.price ≠ 0 := ne_of_gt hA
  unfold evaluate verdictOf compare_prices at hT
  rw [if_neg hne] at hT
  set pc := 100 * (B.price - A.price) / A.price with hpc
  have hfac : (0:ℚ) < 100 / A.price := by positivity
  have hsign : ∀ x : ℚ, (0 < 100 * x / A.price ↔ 0 < x) := by
    intro x
    rw [show 100 * x / A.price = (100 / A.price) * x by ring]
    exact mul_pos_iff_of_pos_left hfac
  have hzero : pc = 0 ↔ B.price - A.price = 0 := by
    rw [hpc, div_eq_zero_iff]
    constructor
    · rintro (h | h)
      · rcases mul_eq_zero.mp h with h | h
        · norm_num at h
        · exact h
      · exact absurd h hne
    · intro h; left; rw [h, mul_zero]
  by_cases hgt : |pc| > th
  · rw [if_pos hgt] at hT
    simp only [Except.ok.injEq, Prod.mk.injEq, AlertVerdict.Triggered.injEq,
      Option.some.injEq] at hT
    have hd : d = if pc > 0 then "increased" else "decreased" := hT.1.symm
    constructor
    · intro hneq
      have hdz : B.price - A.price ≠ 0 := sub_ne_zero.mpr hneq
      by_cases hpos : 0 < B.price - A.price
      · have : 0 < pc := (hsign _).mpr hpos
        rw [hd, if_pos this]
        constructor
        · simp only [true_iff, iff_true]
          · exact lt_of_sub_pos hpos
        · constructor
          · intro h; exact absurd h (by decide)
          · intro h; exact absurd (sub_neg.mpr h) (asymm hpos)
      · have hneg : B.price - A.price < 0 := lt_of_le_of_ne (not_lt.mp hpos) hdz
        have hpcle : ¬ 0 < pc := fun h => hpos ((hsign _).mp h)
        rw [hd, if_neg hpcle]
        constructor
        · constructor
          · intro h; exact absurd h (by decide)
          · intro h; exact absurd (sub_pos.mpr h) (asymm (sub_neg.mpr (sub_neg.mp hneg)))
        · simp only [true_iff, iff_true]
          exact sub_neg.mp hneg
    · intro hth
      intro hEq
      have : pc = 0 := hzero.mpr (sub_eq_zero_of_eq hEq)
      rw [this] at hgt
      simp only [abs_zero] at hgt
      exact absurd hgt (not_lt.mpr hth)
  · rw [if_neg hgt] at hT
    simp at hT

/-- C4 witness: threshold 1, reference price 2000, current price 2021,
direction "increased". -/
theorem c4_direction_witness :
    (sampleB.price ≠ sampleA.price →
      (("increased" = "increased" ↔ sampleA.price < sampleB.price) ∧
       ("increased" = "decreased" ↔ sampleB.price < sampleA.price))) ∧
    ((0:ℚ) ≤ 1 → sampleB.price ≠ sampleA.price) :=
  c4_direction 1 sampleA sampleB "increased" (21/20)
    (by norm_num [sampleA])
    (by norm_num [evaluate, compare_prices, verdictOf, sampleA, sampleB, abs])

/-- C5: `compare_prices` fails with `ZeroDivisionError` exactly when the
reference price is zero; under a positive reference price it always
produces a verdict. -/
theorem c5_division_guard (th : ℚ) (A B : Update) :
    (compare_prices th A B = .error .zeroDivisionError ↔ A.price = 0) ∧
    (0 < A.price → ∃ v lines, compare_prices th A B = .ok (v, lines)) := by
  unfold compare_prices
  by_cases h : A.price = 0
  · rw [if_pos h]
    exact ⟨⟨fun _ => h, fun _ => rfl⟩, fun hlt => absurd h (ne_of_gt hlt)⟩
  · rw [if_neg h]
    constructor
    · constructor
      · intro hc
        simp only [] at hc
        split at hc <;> simp at hc
      · intro hc; exact absurd hc h
    · intro _
      simp only []
      split
      · exact ⟨_, _, rfl⟩
      · exact ⟨_, _, rfl⟩

/-- C5 witness: threshold 1, reference price 2000 (nonzero). -/
theorem c5_division_guard_witness :
    (compare_prices 1 sampleA sampleB = .error .zeroDivisionError ↔
      sampleA.price = 0) ∧
    (∃ v lines, compare_prices 1 sampleA sampleB = .ok (v, lines)) :=
  ⟨(c5_division_guard 1 sampleA sampleB).1,
   (c5_division_guard 1 sampleA sampleB).2 (by norm_num [sampleA])⟩

/-- C9: every successful `compare_prices` call prints the current-price line,
and prints the directional alert line exactly when the verdict is
`Triggered`. -/
theorem c9_print_lines (th : ℚ) (A B : Update) (v : AlertVerdict)
    (lines : List OutputLine)
    (h : compare_prices th A B = .ok (v, lines)) :
    OutputLine.currentPrice B.price ∈ lines ∧
    ((∃ d p, OutputLine.alertMsg d p ∈ lines) ↔ v.isTriggered = true) := by
  unfold compare_prices at h
  split at h
  · simp at h
  · simp only [] at h
    split at h
    · simp only [Except.ok.injEq, Prod.mk.injEq] at h
      rw [← h.2, ← h.1]
      refine ⟨by simp, ?_⟩
      simp only [AlertVerdict.isTriggered, List.mem_cons, List.mem_singleton]
      constructor
      · intro _; trivial
      · intro _; exact ⟨_, _, Or.inl rfl⟩
    · simp only [Except.ok.injEq, Prod.mk.injEq] at h
      rw [← h.2, ← h.1]
      refine ⟨by simp, ?_⟩
      simp [AlertVerdict.isTriggered]

/-- C9 witness: the triggered scenario prints both the alert line and the
current-price line. -/
theorem c9_print_lines_witness :
    OutputLine.currentPrice sampleB.price ∈
      [OutputLine.alertMsg "increased" (21/20), OutputLine.currentPrice 2021] ∧
    ((∃ d p, OutputLine.alertMsg d p ∈
      [OutputLine.alertMsg "increased" (21/20), OutputLine.currentPrice 2021]) ↔
      (AlertVerdict.Triggered "increased" (21/20)).isTriggered = true) :=
  c9_print_lines 1 sampleA sampleB (.Triggered "increased" (21/20))
    [.alertMsg "increased" (21/20), .currentPrice 2021]
    (by norm_num [compare_prices, sampleA, sampleB, abs])

/-- C2: after the first sample (reference present), the decision is
`Elapsed` exactly when `sample.ts - reference.ts >= windowDuration`; in that
case the triggering sample becomes the new reference, otherwise the
reference is unchanged. -/
theorem c2_window_elapsed (wd : ℚ) (ref u : Update) :
    ((window_decide wd (some ref) u).1 = .Elapsed ref u ↔
      u.ts - ref.ts ≥ wd) ∧
    (u.ts - ref.ts ≥ wd → (window_decide wd (some ref) u).2 = u) ∧
    (¬ u.ts - ref.ts ≥ wd →
      (window_decide wd (some ref) u).1 = .Continue ∧
      (window_decide wd (some ref) u).2 = ref) := by
  unfold window_decide
  by_cases h : u.ts - ref.ts ≥ wd
  · simp [h]
  · simp [h]

/-- C2 witness: window 5, reference at ts 0, sample at ts 6. -/
theorem c2_window_elapsed_witness :
    (window_decide 5 (some sampleA) sampleB).1 = .Elapsed sampleA sampleB ∧
    (window_decide 5 (some sampleA) sampleB).2 = sampleB :=
  ⟨(c2_window_elapsed 5 sampleA sampleB).1.mpr
      (by norm_num [sampleA, sampleB]),
   (c2_window_elapsed 5 sampleA sampleB).2.1
      (by norm_num [sampleA, sampleB])⟩

/-- C3 counterexample: with windowDuration = 0, the very first sample does
NOT give Continue: after setting the reference to the sample, the loop finds
`update.ts - update.ts = 0 >= 0` and immediately runs a window evaluation of
the sample against itself, printing the compare-prices current-price line. -/
theorem c3_counterexample :
    (window_decide 0 none sampleA).1 = .Elapsed sampleA sampleA ∧
    (window_decide 0 none sampleA).1 ≠ .Continue ∧
    monitor_step 1 0 none sampleA =
      .ok (some sampleA, .currentPrice 2000 :: display_update sampleA) := by
  refine ⟨?_, ?_, ?_⟩ <;>
    norm_num [window_decide, monitor_step, compare_prices, display_update,
      sampleA, abs]
  exact fun hcon => WindowDecision.noConfusion hcon

/-- C3 (amended): the first sample always becomes the reference; the
decision is Continue exactly for positive window durations, while a zero or
negative duration makes the first sample immediately trigger a window
evaluation against itself. -/
theorem c3_first_sample (wd : ℚ) (u : Update) :
    ((window_decide wd none u).2 = u) ∧
    (0 < wd → window_decide wd none u = (.Continue, u)) ∧
    (wd ≤ 0 → (window_decide wd none u).1 = .Elapsed u u) := by
  unfold window_decide
  simp only [Option.getD_none, sub_self]
  by_cases h : wd ≤ 0
  · rw [if_pos (by simpa using h)]
    exact ⟨rfl, fun hlt => absurd h (not_le.mpr hlt), fun _ => rfl⟩
  · rw [if_neg (by simpa using h)]
    exact ⟨rfl, fun _ => rfl, fun hle => absurd hle h⟩

/-- C3 witness: window 5 gives Continue on the first sample; window 0
immediately elapses. -/
theorem c3_first_sample_witness :
    window_decide 5 none sampleA = (.Continue, sampleA) ∧
    (window_decide 0 none sampleA).1 = .Elapsed sampleA sampleA :=
  ⟨(c3_first_sample 5 sampleA).2.1 (by norm_num),
   (c3_first_sample 0 sampleA).2.2 (by norm_num)⟩

/-- A JSON field value as seen by `float(response[key])` (lines 44-46): a
decimal string parsing to a rational, or a string that `float` rejects with
`ValueError`. -/
inductive FieldVal where
  | num (q : ℚ)
  | nonDecimal
deriving DecidableEq, Repr

/-- The three body fields that `get_prices` reads; `none` models an absent
key, whose subscript lookup raises `KeyError`. -/
structure JsonBody where
  lastPrice : Option FieldVal
  priceChange : Option FieldVal
  priceChangePercent : Option FieldVal
deriving DecidableEq, Repr

/-- A delivered HTTP body: either text that `.json()` rejects, raising
`requests.exceptions.JSONDecodeError` (a `RequestException` subclass in
requests ≥ 2.27), or a parsed JSON object. -/
inductive RawBody where
  | malformed
  | json (b : JsonBody)
deriving DecidableEq, Repr

/-- The outcome of one underlying HTTP attempt made by the transport. -/
inductive TransportOutcome where
  | response (status : Nat) (body : RawBody)
  | connectionError
deriving DecidableEq, Repr

/-- The urllib3 `Retry` configuration built by `create_retry_session`. -/
structure RetryConfig where
  total : Nat
  backoff_factor : ℚ
  status_forcelist : List Nat
deriving DecidableEq, Repr

/-- `create_retry_session` (lines 68-78): `Retry(total=retries,
backoff_factor=backoff_factor, status_forcelist=[500, 502, 503, 504])`
mounted on the session for both schemes. -/
def create_retry_session (retries : Nat) (backoff_factor : ℚ := 3/10) :
    RetryConfig :=
  ⟨retries, backoff_factor, [500, 502, 503, 504]⟩

/-- The session built in `main` (line 98): `create_retry_session(retries=5)`. -/
def main_session : RetryConfig := create_retry_session 5

/-- The retrying GET performed by `session.get` through the mounted adapter.
urllib3 `Retry(total=n)` allows `n` RETRIES after the initial request: each
connection error or response whose status is in `status_forcelist` consumes
one retry, and a further such failure with no retry left raises
`MaxRetryError` (a `RequestException`), modelled by `Except.error ()`.  Any
other response is delivered to the caller; the first argument is the number
of retries remaining and the second the index of the attempt to make. -/
def sessionGet (cfg : RetryConfig) (t : Nat → TransportOutcome) :
    Nat → Nat → Except Unit (Nat × RawBody)
  | 0, i =>
    match t i with
    | .response s b =>
      if s ∈ cfg.status_forcelist then .error () else .ok (s, b)
    | .connectionError => .error ()
  | r + 1, i =>
    match t i with
    | .response s b =>
      if s ∈ cfg.status_forcelist then sessionGet cfg t r (i + 1)
      else .ok (s, b)
    | .connectionError => sessionGet cfg t r (i + 1)

/-- Python `float(response[key])` for one field: `KeyError` on a missing
key, `ValueError` on a non-decimal string. -/
def parseField (f : Option FieldVal) : Except PyExc ℚ :=
  match f with
  | none => .error .keyError
  | some .nonDecimal => .error .valueError
  | some (.num q) => .ok q

/-- One iteration of the `Monitoring.get_prices` generator (lines 39-50).
The `except requests.exceptions.RequestException` clause catches transport
failures (`MaxRetryError`) and malformed-JSON failures (`JSONDecodeError`)
and re-raises them as `RuntimeError`; a `KeyError` from a missing field or a
`ValueError` from `float` is not a `RequestException` and escapes as
itself. -/
def get_prices_once (cfg : RetryConfig) (t : Nat → TransportOutcome)
    (now : ℚ) : Except PyExc Update :=
  match sessionGet cfg t cfg.total 0 with
  | .error _ => .error .runtimeError
  | .ok (_, .malformed) => .error .runtimeError
  | .ok (_, .json body) =>
    match parseField body.lastPrice with
    | .error e => .error e
    | .ok lp =>
      match parseField body.priceChange with
      | .error e => .error e
      | .ok pc =>
        match parseField body.priceChangePercent with
        | .error e => .error e
        | .ok pcp => .ok ⟨lp, pc, pcp, now⟩

/-- One event seen by the `monitor` loop: a yielded update, a `RuntimeError`
raised inside `get_prices`, or a `KeyboardInterrupt`. -/
inductive SamplerEvent where
  | sample (u : Update)
  | fetchFailure
  | interrupt
deriving DecidableEq, Repr

/-- How a (finite prefix of a) `monitor` run ends:  `finished` when the
event list ran out (the real loop is infinite), `interrupted` when
`KeyboardInterrupt` was caught by the handler on line 36, `fatal` when any
other exception propagated out of `monitor`. -/
inductive RunResult where
  | finished (st : Option Update)
  | interrupted (st : Option Update)
  | fatal (e : PyExc) (st : Option Update)
deriving DecidableEq, Repr

/-- `Monitoring.monitor` (lines 27-37) over a finite list of sampler
events: only `KeyboardInterrupt` is caught; a `RuntimeError` from
`get_prices`, or any exception from `compare_prices`, ends the run fatally
and no later event is processed. -/
def monitor_run (percent_threshold time_interval : ℚ) :
    Option Update → List SamplerEvent → RunResult
  | st, [] => .finished st
  | st, .interrupt :: _ => .interrupted st
  | st, .fetchFailure :: _ => .fatal .runtimeError st
  | st, .sample u :: rest =>
    match monitor_step percent_threshold time_interval st u with
    | .error e => .fatal e st
    | .ok (st2, _) => monitor_run percent_threshold time_interval st2 rest

/-- The `monitor` loop run over a finite list of yielded updates, returning
the final `self.initial` (or the first escaping exception). -/
def monitor_fold (percent_threshold time_interval : ℚ) :
    Option Update → List Update → Except PyExc (Option Update)
  | st, [] => .ok st
  | st, u :: rest =>
    match monitor_step percent_threshold time_interval st u with
    | .error e => .error e
    | .ok (st2, _) => monitor_fold percent_threshold time_interval st2 rest

/-- A transport that fails with a connection error on the first five
attempts and then answers with a well-formed body. -/
def failFiveTransport : Nat → TransportOutcome := fun i =>
  if i < 5 then .connectionError
  else .response 200 (.json ⟨some (.num 2021), some (.num 1), some (.num 2)⟩)

lemma sessionGet_deliver (cfg : RetryConfig) (t : Nat → TransportOutcome)
    (r i s : Nat) (b : RawBody) (ht : t i = .response s b)
    (hs : s ∉ cfg.status_forcelist) :
    sessionGet cfg t r i = .ok (s, b) := by
  cases r <;> simp [sessionGet, ht, hs]

lemma sessionGet_all_conn_fail (cfg : RetryConfig) (t : Nat → TransportOutcome) :
    ∀ (r i : Nat), (∀ j, i ≤ j → j ≤ i + r → t j = .connectionError) →
      sessionGet cfg t r i = .error () := by
  intro r
  induction r with
  | zero =>
    intro i hall
    have := hall i le_rfl (by omega)
    simp [sessionGet, this]
  | succ r ih =>
    intro i hall
    have hi := hall i le_rfl (by omega)
    have : sessionGet cfg t (r + 1) i = sessionGet cfg t r (i + 1) := by
      simp [sessionGet, hi]
    rw [this]
    exact ih (i + 1) (fun j h1 h2 => hall j (by omega) (by omega))

lemma sessionGet_fail_then_deliver (cfg : RetryConfig)
    (t : Nat → TransportOutcome) (s : Nat) (b : RawBody)
    (hs : s ∉ cfg.status_forcelist) :
    ∀ (k r i : Nat), k ≤ r →
      (∀ j, j < k → t (i + j) = .connectionError) →
      t (i + k) = .response s b →
      sessionGet cfg t r i = .ok (s, b) := by
  intro k
  induction k with
  | zero =>
    intro r i _ _ ht
    rw [Nat.add_zero] at ht
    exact sessionGet_deliver cfg t r i s b ht hs
  | succ k ih =>
    intro r i hkr hf ht
    match r with
    | 0 => omega
    | r + 1 =>
      have hi : t i = .connectionError := by
        have := hf 0 (Nat.succ_pos k)
        rwa [Nat.add_zero] at this
      have hstep : sessionGet cfg t (r + 1) i = sessionGet cfg t r (i + 1) := by
        simp [sessionGet, hi]
      rw [hstep]
      refine ih r (i + 1) (by omega) ?_ ?_
      · intro j hj
        have := hf (j + 1) (by omega)
        rwa [show i + (j + 1) = i + 1 + j by omega] at this
      · rwa [show i + (k + 1) = i + 1 + k by omega] at ht

/-- C6 counterexample: a well-formed 200 response whose JSON object lacks
the `lastPrice` field makes the fetch escape with `KeyError`, which is not
the FetchError-class `RuntimeError`. -/
theorem c6_counterexample :
    get_prices_once main_session
      (fun _ => .response 200 (.json ⟨none, some (.num 1), some (.num 1)⟩)) 0 =
      .error .keyError ∧
    PyExc.keyError ≠ PyExc.runtimeError :=
  ⟨rfl, by decide⟩

/-- C6 (amended): for a delivered (non-retryable-status) first response,
malformed JSON surfaces the FetchError-class `RuntimeError` — for any retry
budget, so no retry attempts are consumed — while a missing `lastPrice`
field escapes as `KeyError` and a non-decimal `lastPrice` string escapes as
`ValueError`, neither of which is FetchError-class. -/
theorem c6_error_classes (retries : Nat) (bf : ℚ)
    (t : Nat → TransportOutcome) (now : ℚ) (s : Nat) (b : JsonBody)
    (hs : s ∉ (create_retry_session retries bf).status_forcelist) :
    (t 0 = .response s .malformed →
      get_prices_once (create_retry_session retries bf) t now =
        .error .runtimeError) ∧
    (t 0 = .response s (.json b) → b.lastPrice = none →
      get_prices_once (create_retry_session retries bf) t now =
        .error .keyError) ∧
    (t 0 = .response s (.json b) → b.lastPrice = some .nonDecimal →
      get_prices_once (create_retry_session retries bf) t now =
        .error .valueError) := by
  refine ⟨?_, ?_, ?_⟩
  · intro ht
    unfold get_prices_once
    rw [sessionGet_deliver _ _ _ _ _ _ ht hs]
  · intro ht hb
    unfold get_prices_once
    rw [sessionGet_deliver _ _ _ _ _ _ ht hs]
    simp [parseField, hb]
  · intro ht hb
    unfold get_prices_once
    rw [sessionGet_deliver _ _ _ _ _ _ ht hs]
    simp [parseField, hb]

/-- C6 witness: retry budget 5, three concrete bad responses. -/
theorem c6_error_classes_witness :
    (get_prices_once (create_retry_session 5 (3/10))
        (fun _ => .response 200 .malformed) 0 = .error .runtimeError) ∧
    (get_prices_once (create_retry_session 5 (3/10))
        (fun _ => .response 200 (.json ⟨none, some (.num 1), some (.num 1)⟩)) 0 =
      .error .keyError) ∧
    (get_prices_once (create_retry_session 5 (3/10))
        (fun _ => .response 200
          (.json ⟨some .nonDecimal, some (.num 1), some (.num 1)⟩)) 0 =
      .error .valueError) :=
  ⟨(c6_error_classes 5 (3/10) (fun _ => .response 200 .malformed) 0 200
      ⟨none, some (.num 1), some (.num 1)⟩ (by decide)).1 rfl,
   (c6_error_classes 5 (3/10)
      (fun _ => .response 200 (.json ⟨none, some (.num 1), some (.num 1)⟩)) 0
      200 ⟨none, some (.num 1), some (.num 1)⟩ (by decide)).2.1 rfl rfl,
   (c6_error_classes 5 (3/10)
      (fun _ => .response 200
        (.json ⟨some .nonDecimal, some (.num 1), some (.num 1)⟩)) 0
      200 ⟨some .nonDecimal, some (.num 1), some (.num 1)⟩ (by decide)).2.2
      rfl rfl⟩

/-- C7 counterexample: with the session of `main` (`Retry(total=5)`, i.e. 5
retries AFTER the initial request), a transport that fails five times and
then succeeds still yields a valid sample, not a FetchError. -/
theorem c7_counterexample :
    get_prices_once main_session failFiveTransport 0 = .ok ⟨2021, 1, 2, 0⟩ ∧
    get_prices_once main_session failFiveTransport 0 ≠
      .error .runtimeError := by
  have h : get_prices_once main_session failFiveTransport 0 =
      .ok ⟨2021, 1, 2, 0⟩ := rfl
  exact ⟨h, by rw [h]; intro hc; exact Except.noConfusion hc⟩

/-- C7 (amended): the session of `main` is `Retry(total=5, backoff_factor=0.3,
status_forcelist=[500, 502, 503, 504])`, which allows the initial request
plus up to 5 retries (at most 6 attempts in total), retrying only on
connection errors and forcelisted statuses: a transport failing k ≤ 5 times
and then answering 200 with a well-formed body yields a valid Sample, while
a transport failing on all 6 attempts makes the fetch raise the
FetchError-class `RuntimeError`. -/
theorem c7_retry_attempts (t t2 : Nat → TransportOutcome) (now : ℚ)
    (k : Nat) (p1 p2 p3 : ℚ)
    (hk : k ≤ main_session.total)
    (hf : ∀ j, j < k → t j = .connectionError)
    (hsucc : t k = .response 200
      (.json ⟨some (.num p1), some (.num p2), some (.num p3)⟩))
    (hall : ∀ j, j ≤ main_session.total → t2 j = .connectionError) :
    main_session.total = 5 ∧
    main_session.backoff_factor = 3/10 ∧
    main_session.status_forcelist = [500, 502, 503, 504] ∧
    get_prices_once main_session t now = .ok ⟨p1, p2, p3, now⟩ ∧
    get_prices_once main_session t2 now = .error .runtimeError := by
  refine ⟨rfl, rfl, rfl, ?_, ?_⟩
  · unfold get_prices_once
    rw [sessionGet_fail_then_deliver main_session t 200 _ (by decide) k
      main_session.total 0 hk (fun j hj => by simpa using hf j hj)
      (by simpa using hsucc)]
    rfl
  · unfold get_prices_once
    rw [sessionGet_all_conn_fail main_session t2 main_session.total 0
      (fun j h1 h2 => hall j (by omega))]

/-- C7 witness: a transport failing exactly five times then succeeding, and
one failing on every attempt. -/
theorem c7_retry_attempts_witness :
    main_session.total = 5 ∧
    main_session.backoff_factor = 3/10 ∧
    main_session.status_forcelist = [500, 502, 503, 504] ∧
    get_prices_once main_session failFiveTransport 0 = .ok ⟨2021, 1, 2, 0⟩ ∧
    get_prices_once main_session (fun _ => .connectionError) 0 =
      .error .runtimeError :=
  c7_retry_attempts failFiveTransport (fun _ => .connectionError) 0 5 2021 1 2
    (by decide)
    (fun j hj => by simp [failFiveTransport, hj])
    (by simp [failFiveTransport])
    (fun j _ => rfl)

/-- C8: a `RuntimeError` raised inside `get_prices` is not caught by the
loop (which catches only `KeyboardInterrupt`), so the run ends fatally and
no later event is processed, while an interrupt ends the run cleanly; and
with the session of `main`, a transport failing on every attempt makes the
fetch raise exactly that `RuntimeError`. -/
theorem c8_fetch_failure_fatal (percent_threshold time_interval : ℚ)
    (st : Option Update) (rest : List SamplerEvent) :
    monitor_run percent_threshold time_interval st (.fetchFailure :: rest) =
      .fatal .runtimeError st ∧
    monitor_run percent_threshold time_interval st (.interrupt :: rest) =
      .interrupted st ∧
    get_prices_once main_session (fun _ => .connectionError) 0 =
      .error .runtimeError :=
  ⟨rfl, rfl, rfl⟩

lemma monitor_step_new_ref (percent_threshold time_interval : ℚ)
    (st : Option Update) (u : Update) (st2 : Option Update)
    (lines : List OutputLine)
    (h : monitor_step percent_threshold time_interval st u =
      .ok (st2, lines)) :
    st2 = some u ∨ st2 = some ((st.getD u)) := by
  unfold monitor_step window_decide at h
  by_cases hc : u.ts - (st.getD u).ts ≥ time_interval
  · simp only [hc, if_true] at h
    rcases hcomp : compare_prices percent_threshold (st.getD u) u with e | p
    · rw [hcomp] at h
      exact absurd h (by simp)
    · rw [hcomp] at h
      obtain ⟨v, ls⟩ := p
      simp only [Except.ok.injEq, Prod.mk.injEq] at h
      exact Or.inl h.1.symm
  · simp only [hc, if_false] at h
    simp only [Except.ok.injEq, Prod.mk.injEq] at h
    exact Or.inr h.1.symm

lemma monitor_fold_mem (percent_threshold time_interval : ℚ) :
    ∀ (samples : List Update) (st st2 : Option Update),
      monitor_fold percent_threshold time_interval st samples = .ok st2 →
      st2 = st ∨ ∃ v, v ∈ samples ∧ st2 = some v := by
  intro samples
  induction samples with
  | nil =>
    intro st st2 h
    simp only [monitor_fold, Except.ok.injEq] at h
    exact Or.inl h.symm
  | cons u rest ih =>
    intro st st2 h
    simp only [monitor_fold] at h
    rcases hs : monitor_step percent_threshold time_interval st u with e | p
    · rw [hs] at h
      exact absurd h (by simp)
    · rw [hs] at h
      obtain ⟨stm, lines⟩ := p
      rcases ih stm st2 h with h1 | ⟨v, hv, h2⟩
      · rcases monitor_step_new_ref percent_threshold time_interval st u stm
          lines hs with h3 | h3
        · exact Or.inr ⟨u, List.mem_cons_self u rest, h1.trans h3⟩
        · cases st with
          | none =>
            exact Or.inr ⟨u, List.mem_cons_self u rest, h1.trans h3⟩
          | some r =>
            exact Or.inl (h1.trans h3)
      · exact Or.inr ⟨v, List.mem_cons_of_mem u hv, h2⟩

/-- C10: starting from `initial = None`, after the loop has processed at
least one sample without an escaping exception, `self.initial` is some
sample and that sample is one of those yielded by the sampler. -/
theorem c10_reference_invariant (percent_threshold time_interval : ℚ)
    (u : Update) (samples : List Update) (st2 : Option Update)
    (h : monitor_fold percent_threshold time_interval none (u :: samples) =
      .ok st2) :
    ∃ v, st2 = some v ∧ v ∈ u :: samples := by
  simp only [monitor_fold] at h
  rcases hs : monitor_step percent_threshold time_interval none u with e | p
  · rw [hs] at h
    exact absurd h (by simp)
  · rw [hs] at h
    obtain ⟨stm, lines⟩ := p
    have hstm : stm = some u := by
      rcases monitor_step_new_ref percent_threshold time_interval none u stm
        lines hs with h3 | h3
      · exact h3
      · simpa using h3
    rcases monitor_fold_mem percent_threshold time_interval samples stm st2 h
      with h1 | ⟨v, hv, h2⟩
    · exact ⟨u, h1.trans hstm, List.mem_cons_self u samples⟩
    · exact ⟨v, h2, List.mem_cons_of_mem u hv⟩

/-- C10 witness: two samples, window 5, threshold 1: the final reference is
the second sample, which closed the first window. -/
theorem c10_reference_invariant_witness :
    ∃ v, (some sampleB : Option Update) = some v ∧ v ∈ [sampleA, sampleB] :=
  c10_reference_invariant 1 5 sampleA [sampleB] (some sampleB)
    (by norm_num [monitor_fold, monitor_step, window_decide, compare_prices,
      display_update, sampleA, sampleB, abs])
